import Mathlib

/-
Shallow embedding of the LMS backend (FastAPI + MongoDB) core:
the enrollment ledger, attendance recording, progress/attendance
aggregation, module/lesson ordering, assignment submission, and the
auth endpoints (refresh token, forgot password).

Conventions of the embedding:
* Mongo ObjectIds are modelled as `Nat`; dates and datetimes as `Nat`.
* Each Mongo collection is a `List` of records inside a `DB` structure;
  `find_one` is `List.find?`, `update_one` updates the first match,
  `delete_one` erases the first match, `insert_one` appends.
* Handler outcomes are a `Resp`: `ok msg` (HTTP 200 with a message),
  `httpError code detail` (a raised HTTPException), or `pyError msg`
  (an uncaught Python exception, i.e. an HTTP 500 from the framework).
* Python float arithmetic on these small aggregates is modelled with `ℚ`;
  Python `round` (banker's rounding, round-half-to-even) is `roundHalfEven`
  and two-decimal rounding `round(x, 2)` is `round2`.
-/

namespace LMS

/-- Python `round(q)`: round half to even, returning an integer. -/
def roundHalfEven (q : ℚ) : ℤ :=
  if q - (⌊q⌋ : ℚ) < 1/2 then ⌊q⌋
  else if 1/2 < q - (⌊q⌋ : ℚ) then ⌊q⌋ + 1
  else if ⌊q⌋ % 2 = 0 then ⌊q⌋ else ⌊q⌋ + 1

/-- Python `round(q, 2)`: round half to even at two decimal places. -/
def round2 (q : ℚ) : ℚ := ((roundHalfEven (q * 100) : ℚ)) / 100

/-- Update the first element of a list satisfying `p` (Mongo `update_one`). -/
def updateFirst (p : α → Bool) (f : α → α) : List α → List α
  | [] => []
  | x :: xs => if p x then f x :: xs else x :: updateFirst p f xs

/-- A user document (collection `users`). -/
structure UserRec where
  id : Nat
  email : String
  username : String
  role : String
  deriving Repr, DecidableEq

/-- A course document (collection `courses`); only the fields the core
logic reads or writes are modelled. -/
structure Course where
  id : Nat
  teacher_id : Nat
  courseName : String
  instructorName : String
  maxStudents : Nat
  studentsEnrolled : Nat
  hasModules : Bool
  deriving Repr, DecidableEq

/-- An enrollment document (collection `enrollments`). -/
structure Enrollment where
  course_id : Nat
  student_id : Nat
  enrollment_date : Nat
  progress : ℚ
  status : String
  deriving Repr, DecidableEq

/-- An attendance document (collection `attendance`). -/
structure AttRecord where
  course_id : Nat
  student_id : Nat
  date : Nat
  status : String
  time : Option String
  note : Option String
  recorded_by : Nat
  created_at : Nat
  deriving Repr, DecidableEq

/-- An assignment document (collection `assignments`); the course
reference field is named `course` in the source. -/
structure Assignment where
  id : Nat
  course : Nat
  teacher_id : Nat
  title : String
  deadline : Nat
  deriving Repr, DecidableEq

/-- An assignment-submission document (collection `assignment_submissions`).
`score` is `none` until the submission is graded. -/
structure Submission where
  assignment_id : Nat
  student_id : Nat
  submission_text : Option String
  submission_file : Option String
  submitted_at : Nat
  status : String
  score : Option ℚ
  deriving Repr, DecidableEq

/-- A module document (collection `modules`). -/
structure ModuleRec where
  id : Nat
  course_id : Nat
  title : String
  order : Nat
  deriving Repr, DecidableEq

/-- A lesson document (collection `lessons`). -/
structure LessonRec where
  id : Nat
  module_id : Nat
  title : String
  duration : String
  order : Nat
  deriving Repr, DecidableEq

/-- A notification document (collection `notifications`); only the fields
written by `submit_assignment` are modelled. -/
structure NotificationRec where
  title : String
  recipient_id : Nat
  sender_id : Nat
  course_id : Nat
  read : Bool
  created_at : Nat
  deriving Repr, DecidableEq

/-- A password-reset OTP document (collection `password_reset`);
`expires_at` is `created_at` plus 15 (minutes). -/
structure ResetRec where
  email : String
  otp : String
  created_at : Nat
  expires_at : Nat
  deriving Repr, DecidableEq

/-- The document store: one list per collection used by the core. -/
structure DB where
  users : List UserRec
  courses : List Course
  enrollments : List Enrollment
  attendance : List AttRecord
  assignments : List Assignment
  assignment_submissions : List Submission
  modules : List ModuleRec
  lessons : List LessonRec
  notifications : List NotificationRec
  password_reset : List ResetRec
  deriving Repr, DecidableEq

/-- Outcome of a handler call: a 200 body message, a raised
`HTTPException(code, detail)`, or an uncaught Python exception
(which FastAPI surfaces as HTTP 500). -/
inductive Resp where
  | ok (msg : String)
  | httpError (code : Nat) (detail : String)
  | pyError (msg : String)
  deriving Repr, DecidableEq

/-- Attendance status string for "Present". -/
def stPresent : String := "Present"

/-- Attendance status string for "Absent". -/
def stAbsent : String := "Absent"

/-- Attendance status string for "Late". -/
def stLate : String := "Late"

/-- Attendance status string for "Excused". -/
def stExcused : String := "Excused"

/-- Statistics block returned by `get_student_attendance`
(src/app/api/v1/endpoints/attendance.py lines 235-255). -/
structure AttStats where
  total : Nat
  present : Nat
  absent : Nat
  late : Nat
  excused : Nat
  attendance_rate : ℚ
  deriving Repr, DecidableEq

/-- GET /attendance/student (attendance.py `get_student_attendance`):
filter the attendance collection by the current student and the optional
course filter, keep only records whose course still exists (the loop
attaches `course_name` and drops records otherwise), then compute the
statistics block; the rate is `present/total*100` when `total > 0`,
else `0`, rounded to 2 decimal places with Python `round(_, 2)`. -/
def get_student_attendance (db : DB) (sid : Nat) (courseFilter : Option Nat) :
    List AttRecord × AttStats :=
  let queried := db.attendance.filter (fun r =>
    r.student_id == sid &&
      (match courseFilter with
       | none => true
       | some cid => r.course_id == cid))
  let records := queried.filter (fun r =>
    (db.courses.find? (fun c => c.id == r.course_id)).isSome)
  let total := records.length
  let present := records.countP (fun r => r.status == stPresent)
  let absent := records.countP (fun r => r.status == stAbsent)
  let late := records.countP (fun r => r.status == stLate)
  let excused := records.countP (fun r => r.status == stExcused)
  let rate : ℚ := if total > 0 then ((present : ℚ) / (total : ℚ)) * 100 else 0
  (records, ⟨total, present, absent, late, excused, round2 rate⟩)

/-- The per-course score computation shared verbatim by
students.py `get_student_progress` (lines 146-152) and
courses.py `get_course_students` (lines 587-593):
`0` when there is no submission or no graded submission, else
`sum(scores) / (len(graded) * 100) * 100` over the submissions whose
`score` is not `None`. -/
def calcScore (subs : List Submission) : ℚ :=
  if subs.isEmpty then 0
  else
    let graded := subs.filter (fun s => s.score.isSome)
    if graded.isEmpty then 0
    else ((graded.filterMap (fun s => s.score)).sum) /
      ((graded.length : ℚ) * 100) * 100

/-- The submissions considered for a (course, student) scope: submissions
by the student whose assignment belongs to the course (students.py
lines 137-140, courses.py lines 576-580). -/
def submissionsFor (db : DB) (cid sid : Nat) : List Submission :=
  db.assignment_submissions.filter (fun s =>
    s.student_id == sid &&
      (db.assignments.filter (fun a => a.course == cid)).any
        (fun a => a.id == s.assignment_id))

/-- The attendance percentage for a (course, student) scope as computed in
students.py lines 164-168 and courses.py lines 566-571:
`0` with no records, else `present_count / len(records) * 100`. -/
def courseAttendancePct (db : DB) (cid sid : Nat) : ℚ :=
  let recs := db.attendance.filter (fun r =>
    r.course_id == cid && r.student_id == sid)
  if recs.isEmpty then 0
  else ((recs.countP (fun r => r.status == stPresent) : ℚ) /
    (recs.length : ℚ)) * 100

/-- One per-course entry of the GET /students/progress response
(students.py lines 170-180); `score` and `attendance` carry Python
`round(_)` applied to the raw rational metrics. -/
structure ProgressEntry where
  course_id : Nat
  progress : ℚ
  score : ℤ
  attendance : ℤ
  completed : Bool
  deriving Repr, DecidableEq

/-- GET /students/progress (students.py `get_student_progress`): one entry
per enrollment of the student whose course exists, with the rounded score
and attendance metrics; the second component is `overall_progress`,
the rounded mean of the entries' progress values (0 when there are none). -/
def get_student_progress (db : DB) (sid : Nat) : List ProgressEntry × ℤ :=
  let entries := (db.enrollments.filter (fun e => e.student_id == sid)).filterMap
    (fun e =>
      (db.courses.find? (fun c => c.id == e.course_id)).map (fun _ =>
        { course_id := e.course_id
          progress := e.progress
          score := roundHalfEven (calcScore (submissionsFor db e.course_id sid))
          attendance := roundHalfEven (courseAttendancePct db e.course_id sid)
          completed := decide (e.progress ≥ 100) }))
  let overall : ℚ :=
    if entries.isEmpty then 0
    else (entries.map (fun e => e.progress)).sum / (entries.length : ℚ)
  (entries, roundHalfEven overall)

/-- One per-student entry of the GET /courses/{id}/students response
(courses.py `get_course_students`, lines 594-604): only the derived
metric fields are modelled. -/
structure CourseStudentEntry where
  student_id : Nat
  progress : ℚ
  status : String
  attendance : ℤ
  performance : ℤ
  deriving Repr, DecidableEq

/-- GET /courses/{course_id}/students (courses.py `get_course_students`):
one entry per enrollment of the course whose student user exists, with
rounded attendance and performance metrics. -/
def get_course_students (db : DB) (cid : Nat) : List CourseStudentEntry :=
  (db.enrollments.filter (fun e => e.course_id == cid)).filterMap
    (fun e =>
      (db.users.find? (fun u => u.id == e.student_id)).map (fun _ =>
        { student_id := e.student_id
          progress := e.progress
          status := e.status
          attendance := roundHalfEven (courseAttendancePct db cid e.student_id)
          performance := roundHalfEven (calcScore (submissionsFor db cid e.student_id)) }))

/-- Response message of a successful enrollment. -/
def msgEnrollOk : String := "Successfully enrolled in course"

/-- Detail of the duplicate-enrollment HTTPException (a Conflict). -/
def msgAlreadyEnrolled : String := "Already enrolled in this course"

/-- Detail of the course-at-capacity HTTPException. -/
def msgCourseFull : String := "Course is full"

/-- Detail of the missing-course HTTPException. -/
def msgCourseNotFound : String := "Course not found"

/-- Detail of the missing-or-not-owned-course HTTPException (the source
text uses a contraction; it is immaterial to every claim). -/
def msgCourseNotFoundOwn : String := "Course not found or you do not have permission"

/-- Detail of the not-enrolled HTTPException in `record_attendance`. -/
def msgStudentNotEnrolled : String := "Student not enrolled in this course"

/-- Response message when an existing attendance record was updated. -/
def msgAttUpdated : String := "Attendance record updated successfully"

/-- Response message when a new attendance record was inserted. -/
def msgAttRecorded : String := "Attendance recorded successfully"

/-- Response message of `bulk_record_attendance`, returned unconditionally
after the course ownership check. -/
def msgAttBulk : String := "Attendance recorded successfully for all students"

/-- Detail of the missing-module HTTPException (contraction flattened). -/
def msgModuleNotFound : String := "Module not found or does not belong to this course"

/-- Detail of the missing-lesson HTTPException (contraction flattened). -/
def msgLessonNotFound : String := "Lesson not found or does not belong to this module"

/-- Response message of `delete_lesson`. -/
def msgLessonDeleted : String := "Lesson deleted successfully"

/-- Response message of `create_module`. -/
def msgModuleCreated : String := "Module created successfully"

/-- Response message of `create_lesson`. -/
def msgLessonCreated : String := "Lesson created successfully"

/-- The enrollment document created by a successful enroll call
(courses.py lines 176-183): progress 0, status Active. -/
def mkEnrollment (cid sid now : Nat) : Enrollment :=
  { course_id := cid, student_id := sid, enrollment_date := now,
    progress := 0, status := "Active" }

/-- The `$inc` update applied to the course document on enrollment
(courses.py lines 187-190). -/
def bumpEnrolledCount (c : Course) : Course :=
  { c with studentsEnrolled := c.studentsEnrolled + 1 }

/-- POST /courses/enroll (courses.py `enroll_in_course`, lines 140-192):
look up the course; 404 if absent; 400 Conflict if an enrollment for the
(course, student) pair exists; 400 Capacity if
`studentsEnrolled >= maxStudents`; otherwise insert an enrollment with
`progress = 0`, `status = "Active"` and `$inc` the course counter. -/
def enroll_in_course (db : DB) (now : Nat) (courseId studentId : Nat) :
    Resp × DB :=
  match db.courses.find? (fun c => c.id == courseId) with
  | none => (.httpError 404 msgCourseNotFound, db)
  | some course =>
    match db.enrollments.find?
        (fun e => e.course_id == courseId && e.student_id == studentId) with
    | some _ => (.httpError 400 msgAlreadyEnrolled, db)
    | none =>
      if course.studentsEnrolled ≥ course.maxStudents then
        (.httpError 400 msgCourseFull, db)
      else
        let db1 := { db with enrollments :=
          db.enrollments ++ [mkEnrollment courseId studentId now] }
        let bumped := updateFirst (fun c => c.id == courseId)
          bumpEnrolledCount db1.courses
        let db2 := { db1 with courses := bumped }
        (.ok msgEnrollOk, db2)

/-- Request body of POST /attendance/record (models/attendance.py
`AttendanceCreate`). -/
structure AttendanceCreate where
  course_id : Nat
  student_id : Nat
  date : Nat
  status : String
  time : Option String
  note : Option String
  deriving Repr, DecidableEq

/-- One element of the `records` list of a bulk attendance request
(a dict with student_id, status, time, note). -/
structure BulkRec where
  student_id : Nat
  status : String
  time : Option String
  note : Option String
  deriving Repr, DecidableEq

/-- Request body of POST /attendance/bulk-record (models/attendance.py
`AttendanceBulkCreate`). -/
structure AttendanceBulkCreate where
  course_id : Nat
  date : Nat
  records : List BulkRec
  deriving Repr, DecidableEq

/-- The Mongo key filter used on the attendance collection: matches the
(course, student, date) triple. -/
def attKeyMatches (cid sid d : Nat) (r : AttRecord) : Bool :=
  r.course_id == cid && r.student_id == sid && r.date == d

/-- The `$set` update applied to an existing attendance record on
conflict: only status, time and note change; the key fields stay. -/
def setAttFields (st : String) (tm nt : Option String) (r : AttRecord) : AttRecord :=
  { r with status := st, time := tm, note := nt }

/-- The attendance document inserted for a fresh (course, student, date)
key. -/
def mkAttRecord (cid sid d : Nat) (st : String) (tm nt : Option String)
    (teacher now : Nat) : AttRecord :=
  { course_id := cid, student_id := sid, date := d, status := st, time := tm,
    note := nt, recorded_by := teacher, created_at := now }

/-- POST /attendance/record (attendance.py `record_attendance`,
lines 14-82): ownership check, enrollment check, then upsert keyed on
(course, student, date): update the found record's status/time/note in
place, or insert one new record. -/
def record_attendance (db : DB) (teacher now : Nat) (a : AttendanceCreate) :
    Resp × DB :=
  match db.courses.find?
      (fun c => c.id == a.course_id && c.teacher_id == teacher) with
  | none => (.httpError 404 msgCourseNotFoundOwn, db)
  | some _ =>
    match db.enrollments.find?
        (fun e => e.course_id == a.course_id && e.student_id == a.student_id) with
    | none => (.httpError 404 msgStudentNotEnrolled, db)
    | some _ =>
      match db.attendance.find? (attKeyMatches a.course_id a.student_id a.date) with
      | some _ =>
        let updated := updateFirst (attKeyMatches a.course_id a.student_id a.date)
          (setAttFields a.status a.time a.note) db.attendance
        (.ok msgAttUpdated, { db with attendance := updated })
      | none =>
        let newRec := mkAttRecord a.course_id a.student_id a.date a.status
          a.time a.note teacher now
        (.ok msgAttRecorded, { db with attendance := db.attendance ++ [newRec] })

/-- One iteration of the loop of `bulk_record_attendance` (attendance.py
lines 105-147): skip the record when its student has no enrollment in the
course, else upsert keyed on (course, student, date). -/
def bulkStep (teacher now cid d : Nat) (db : DB) (rec : BulkRec) : DB :=
  match db.enrollments.find?
      (fun e => e.course_id == cid && e.student_id == rec.student_id) with
  | none => db
  | some _ =>
    match db.attendance.find? (attKeyMatches cid rec.student_id d) with
    | some _ =>
      let updated := updateFirst (attKeyMatches cid rec.student_id d)
        (setAttFields rec.status rec.time rec.note) db.attendance
      { db with attendance := updated }
    | none =>
      let newRec := mkAttRecord cid rec.student_id d rec.status
        rec.time rec.note teacher now
      { db with attendance := db.attendance ++ [newRec] }

/-- POST /attendance/bulk-record (attendance.py `bulk_record_attendance`,
lines 84-149): ownership check, then fold `bulkStep` over the records;
the success message is returned unconditionally afterwards. -/
def bulk_record_attendance (db : DB) (teacher now : Nat)
    (b : AttendanceBulkCreate) : Resp × DB :=
  match db.courses.find?
      (fun c => c.id == b.course_id && c.teacher_id == teacher) with
  | none => (.httpError 404 msgCourseNotFoundOwn, db)
  | some _ =>
    (.ok msgAttBulk, b.records.foldl (bulkStep teacher now b.course_id b.date) db)

/-- An attendance-recording call: either of the two endpoints. -/
inductive AttOp where
  | single (teacher now : Nat) (a : AttendanceCreate)
  | bulk (teacher now : Nat) (b : AttendanceBulkCreate)

/-- The state transition of one attendance-recording call. -/
def applyAttOp (db : DB) : AttOp → DB
  | .single teacher now a => (record_attendance db teacher now a).2
  | .bulk teacher now b => (bulk_record_attendance db teacher now b).2

/-- Number of attendance records for a (course, student, date) key. -/
def attCount (l : List AttRecord) (cid sid d : Nat) : Nat :=
  l.countP (attKeyMatches cid sid d)

/-- Uniqueness invariant: at most one attendance record per
(course, student, date) key. -/
def attUnique (db : DB) : Prop :=
  ∀ cid sid d, attCount db.attendance cid sid d ≤ 1

/-- Order assigned to a new module/lesson (courses.py lines 308-316 and
384-392): `find_one` sorted by `order` descending yields the sibling of
maximum order, and the new order is that maximum plus 1, or 1 when there
is no sibling; over `Nat` this is `foldl max 0 + 1`. -/
def nextOrder (orders : List Nat) : Nat :=
  orders.foldl Nat.max 0 + 1

/-- The module document inserted by `create_module`. -/
def mkModule (newId cid : Nat) (title : String) (ord : Nat) : ModuleRec :=
  { id := newId, course_id := cid, title := title, order := ord }

/-- The lesson document inserted by `create_lesson`. -/
def mkLesson (newId mid : Nat) (title duration : String) (ord : Nat) : LessonRec :=
  { id := newId, module_id := mid, title := title, duration := duration,
    order := ord }

/-- POST /courses/{course_id}/modules (courses.py `create_module`,
lines 286-343): ownership check, order assignment, insert, and set the
course's `hasModules` flag. -/
def create_module (db : DB) (teacher : Nat) (cid : Nat) (title : String)
    (newId : Nat) : Resp × DB :=
  match db.courses.find?
      (fun c => c.id == cid && c.teacher_id == teacher) with
  | none => (.httpError 404 msgCourseNotFoundOwn, db)
  | some _ =>
    let siblings := db.modules.filter (fun m => m.course_id == cid)
    let ord := nextOrder (siblings.map (fun m => m.order))
    let flagged := updateFirst (fun c => c.id == cid)
      (fun c => { c with hasModules := true }) db.courses
    (.ok msgModuleCreated,
      { db with modules := db.modules ++ [mkModule newId cid title ord], courses := flagged })

/-- POST /courses/{course_id}/modules/{module_id}/lessons (courses.py
`create_lesson`, lines 344-419): ownership check, module membership check,
order assignment among the module's lessons, insert. -/
def create_lesson (db : DB) (teacher : Nat) (cid mid : Nat)
    (title duration : String) (newId : Nat) : Resp × DB :=
  match db.courses.find?
      (fun c => c.id == cid && c.teacher_id == teacher) with
  | none => (.httpError 404 msgCourseNotFoundOwn, db)
  | some _ =>
    match db.modules.find? (fun m => m.id == mid && m.course_id == cid) with
    | none => (.httpError 404 msgModuleNotFound, db)
    | some _ =>
      let siblings := db.lessons.filter (fun l => l.module_id == mid)
      let ord := nextOrder (siblings.map (fun l => l.order))
      (.ok msgLessonCreated,
        { db with lessons := db.lessons ++ [mkLesson newId mid title duration ord] })

/-- DELETE .../lessons/{lesson_id} (courses.py `delete_lesson`,
lines 420-472): ownership check, module membership check, lesson
membership check, then `delete_one` on the lesson; no other document
is touched and no sibling order is reassigned. -/
def delete_lesson (db : DB) (teacher : Nat) (cid mid lid : Nat) : Resp × DB :=
  match db.courses.find?
      (fun c => c.id == cid && c.teacher_id == teacher) with
  | none => (.httpError 404 msgCourseNotFoundOwn, db)
  | some _ =>
    match db.modules.find? (fun m => m.id == mid && m.course_id == cid) with
    | none => (.httpError 404 msgModuleNotFound, db)
    | some _ =>
      match db.lessons.find? (fun l => l.id == lid && l.module_id == mid) with
      | none => (.httpError 404 msgLessonNotFound, db)
      | some _ =>
        (.ok msgLessonDeleted,
          { db with lessons := db.lessons.eraseP (fun l => l.id == lid) })

/-- Submission status string "Submitted". -/
def stSubmitted : String := "Submitted"

/-- The token type tag "refresh". -/
def strRefresh : String := "refresh"

/-- The token type tag "access". -/
def strAccess : String := "access"

/-- The empty string (Python treats it as falsy in `if not user_id`). -/
def emptyStr : String := ""

/-- Detail of the missing-refresh-cookie HTTPException. -/
def msgRefreshRequired : String := "Refresh token required"

/-- Detail of the wrong-token-type HTTPException. -/
def msgInvalidTokenType : String := "Invalid token type"

/-- Detail of the generic credential-validation HTTPException. -/
def msgCouldNotValidate : String := "Could not validate credentials"

/-- The anti-enumeration response message of `forgot_password`. -/
def msgForgot : String := "If your email is registered, you will receive a password reset link"

/-- Response message of a successful `submit_assignment`. -/
def msgSubmitOk : String := "Assignment submitted successfully"

/-- Title of the notification inserted by `submit_assignment`. -/
def notifTitle : String := "Assignment Submission"

/-- The name `jwt`, referenced by auth.py line 140. -/
def nameJwt : String := "jwt"

/-- The name `datetime`, referenced by auth.py lines 213-214. -/
def nameDatetime : String := "datetime"

/-- Every name bound at module level in
src/app/api/v1/endpoints/auth.py: the names introduced by its import
block (lines 1-19), the module-level assignments `router` and `logger`
(lines 21-22), and the handler functions the module defines. Notably
absent: `jwt`, `JWTError`, `ValidationError` and the `datetime` class
(line 1 imports only `timedelta` from the datetime module). -/
def authModuleGlobals : List String :=
  ["timedelta", "Any", "APIRouter", "Depends", "HTTPException", "status",
   "Body", "Response", "Cookie", "OAuth2PasswordRequestForm", "settings",
   "create_access_token", "create_refresh_token", "verify_password",
   "get_password_hash", "db", "User", "UserCreate",
   "send_reset_password_email", "send_verification_email",
   "get_current_user", "ObjectId", "random", "string", "logging",
   "router", "logger", "signup", "login", "refresh_token", "logout",
   "forgot_password", "verify_otp", "reset_password"]

/-- Python name resolution for a global referenced inside a handler of
auth.py: the name must be bound at module level, else evaluating it
raises `NameError` (surfaced by FastAPI as HTTP 500). -/
def resolvesInAuth (n : String) : Bool := authModuleGlobals.contains n

/-- The Python exception text for the unresolvable `jwt`. -/
def pyNameErrorJwt : String := "NameError: name jwt is not defined"

/-- The Python exception text for the unresolvable `datetime`. -/
def pyNameErrorDatetime : String := "NameError: name datetime is not defined"

/-- The decoded claims of a JWT (the token codec collaborator of the
core): `payload.get("sub")` and `payload.get("type")`. -/
structure TokenPayload where
  sub : Option String
  type : Option String
  deriving Repr, DecidableEq

/-- Outcome of the refresh-token endpoint: a new token pair issued for a
subject, a raised HTTPException, or an uncaught Python exception. -/
inductive RefreshResp where
  | issued (accessSub refreshSub : String)
  | httpError (code : Nat) (detail : String)
  | pyError (msg : String)
  deriving Repr, DecidableEq

/-- The body of the `try` block of auth.py `refresh_token`
(lines 139-163) plus the token issuance (lines 165-186), as written:
decode failure gives 401; a decoded type tag other than "refresh" gives
401 "Invalid token type"; a missing or falsy subject gives 401; otherwise
a new access/refresh pair is issued for the subject. `decode` abstracts
the token codec (`jwt.decode`), returning `none` on a malformed or
expired token (`JWTError`). -/
def refreshTokenLogic (decode : String → Option TokenPayload)
    (tok : String) : RefreshResp :=
  match decode tok with
  | none => .httpError 401 msgCouldNotValidate
  | some payload =>
    if payload.type ≠ some strRefresh then .httpError 401 msgInvalidTokenType
    else
      match payload.sub with
      | none => .httpError 401 msgCouldNotValidate
      | some uid =>
        if uid == emptyStr then .httpError 401 msgCouldNotValidate
        else .issued uid uid

/-- POST /auth/refresh-token (auth.py `refresh_token`, lines 124-186):
a missing cookie gives 401; otherwise the handler evaluates
`jwt.decode(...)` (line 140), which requires resolving the global name
`jwt` first — auth.py never imports `jwt`, so the reference raises
`NameError` before any decoding happens. The coded logic behind that
unresolvable name is `refreshTokenLogic`. -/
def refresh_token (decode : String → Option TokenPayload)
    (cookie : Option String) : RefreshResp :=
  match cookie with
  | none => .httpError 401 msgRefreshRequired
  | some tok =>
    if resolvesInAuth nameJwt then refreshTokenLogic decode tok
    else .pyError pyNameErrorJwt

/-- POST /auth/forgot-password (auth.py `forgot_password`,
lines 196-220): an unknown email returns the generic success message at
once; for a known email the handler builds the OTP document, whose
`created_at` field evaluates `datetime.utcnow()` (line 213) — auth.py
imports only `timedelta` from datetime, so resolving `datetime` raises
`NameError` before the insert; had it resolved, the OTP document would be
inserted (expiry 15 minutes later) and the same generic message
returned. `otp` abstracts the six random digits, `now` the clock. -/
def forgot_password (db : DB) (now : Nat) (otp : String)
    (email : String) : Resp × DB :=
  match db.users.find? (fun u => u.email == email) with
  | none => (.ok msgForgot, db)
  | some _ =>
    if resolvesInAuth nameDatetime then
      let resetDoc : ResetRec :=
        { email := email, otp := otp, created_at := now,
          expires_at := now + 15 }
      (.ok msgForgot, { db with password_reset := db.password_reset ++ [resetDoc] })
    else (.pyError pyNameErrorDatetime, db)

/-- The Python exception text for reading the uninitialized local
`status` in `submit_assignment`. -/
def pyUnboundLocalStatus : String :=
  "UnboundLocalError: local variable status referenced before assignment"

/-- Prefix of the Python exception text for an attribute access on a
string value. -/
def pyStrAttrPre : String := "AttributeError: str object has no attribute "

/-- The attribute name `HTTP_404_NOT_FOUND`. -/
def attrHTTP404 : String := "HTTP_404_NOT_FOUND"

/-- The attribute name `HTTP_403_FORBIDDEN`. -/
def attrHTTP403 : String := "HTTP_403_FORBIDDEN"

/-- The attribute name `HTTP_400_BAD_REQUEST`. -/
def attrHTTP400 : String := "HTTP_400_BAD_REQUEST"

/-- Evaluating `status.<attr>` inside `submit_assignment`
(assignments.py): because the function assigns `status = "Late"` or
`status = "Submitted"` in its body (lines 266-269), Python makes
`status` a local variable throughout the whole function, shadowing the
imported `fastapi.status` module; reading it before those assignments
raises `UnboundLocalError`, and reading `status.HTTP_400_BAD_REQUEST`
after them is an attribute access on a plain string, raising
`AttributeError`. Either way the handler dies with an uncaught
exception (HTTP 500) instead of raising the intended HTTPException. -/
def pyLocalStatusAttr (local_status : Option String) (attr : String) : Resp :=
  match local_status with
  | none => .pyError pyUnboundLocalStatus
  | some _ => .pyError (pyStrAttrPre ++ attr)

/-- POST /assignments/{assignment_id}/submit (assignments.py
`submit_assignment`, lines 238-308): assignment lookup, enrollment
check, deadline comparison fixing the local `status` string, duplicate
check keyed on (assignment, student), then insert of the submission and
of one notification to the assignment's teacher. All three error
branches evaluate `status.HTTP_...` on the shadowed local (see
`pyLocalStatusAttr`). -/
def submit_assignment (db : DB) (now : Nat) (sid aid : Nat)
    (text fil : Option String) : Resp × DB :=
  match db.assignments.find? (fun a => a.id == aid) with
  | none => (pyLocalStatusAttr none attrHTTP404, db)
  | some a =>
    match db.enrollments.find?
        (fun e => e.course_id == a.course && e.student_id == sid) with
    | none => (pyLocalStatusAttr none attrHTTP403, db)
    | some _ =>
      let st := if now > a.deadline then stLate else stSubmitted
      match db.assignment_submissions.find?
          (fun s => s.assignment_id == aid && s.student_id == sid) with
      | some _ => (pyLocalStatusAttr (some st) attrHTTP400, db)
      | none =>
        let newSub : Submission :=
          { assignment_id := aid, student_id := sid, submission_text := text,
            submission_file := fil, submitted_at := now, status := st,
            score := none }
        let notif : NotificationRec :=
          { title := notifTitle, recipient_id := a.teacher_id,
            sender_id := sid, course_id := a.course, read := false,
            created_at := now }
        (.ok msgSubmitOk,
          { db with
              assignment_submissions := db.assignment_submissions ++ [newSub],
              notifications := db.notifications ++ [notif] })

/-- The empty document store. -/
def emptyDB : DB :=
  { users := [], courses := [], enrollments := [], attendance := [],
    assignments := [], assignment_submissions := [], modules := [],
    lessons := [], notifications := [], password_reset := [] }

/-- A concrete course owned by teacher 9, capacity 2, nobody enrolled. -/
def course1 : Course :=
  { id := 1, teacher_id := 9, courseName := "Algebra", instructorName := "T",
    maxStudents := 2, studentsEnrolled := 0, hasModules := false }

/-- A concrete enrollment of student 7 in course 1. -/
def enr17 : Enrollment :=
  { course_id := 1, student_id := 7, enrollment_date := 0, progress := 0,
    status := "Active" }

/-- A concrete attendance record for (course 1, student 7) on a date. -/
def attRec (d : Nat) (st : String) : AttRecord :=
  { course_id := 1, student_id := 7, date := d, status := st, time := none,
    note := none, recorded_by := 9, created_at := 0 }

/-- Store for the C1 scenario: course 1 exists, student 7 enrolled, and
the four attendance records Present, Present, Absent, Late. -/
def dbScenario : DB :=
  { emptyDB with
      courses := [course1]
      enrollments := [enr17]
      attendance := [attRec 1 stPresent, attRec 2 stPresent,
        attRec 3 stAbsent, attRec 4 stLate] }

/-- Store with course 1 (capacity 2, 0 enrolled) and no enrollments. -/
def dbEnroll : DB := { emptyDB with courses := [course1] }

/-- Store whose course 1 is at capacity (2 of 2 seats taken). -/
def dbFull : DB :=
  { emptyDB with courses := [{ course1 with studentsEnrolled := 2 }] }

/-- Store for attendance recording: course 1 owned by teacher 9,
student 7 enrolled, no attendance yet. -/
def dbAtt : DB := { emptyDB with courses := [course1], enrollments := [enr17] }

/-- A concrete single-record attendance request for (course 1, student 7,
date 3). -/
def attReq : AttendanceCreate :=
  { course_id := 1, student_id := 7, date := 3, status := stPresent,
    time := none, note := none }

/-- A concrete bulk attendance request for course 1, date 3, naming
students 7 and 8 (neither enrolled in `dbBulk`). -/
def bulkReq : AttendanceBulkCreate :=
  { course_id := 1, date := 3,
    records := [{ student_id := 7, status := stPresent, time := none, note := none },
      { student_id := 8, status := stAbsent, time := none, note := none }] }

/-- Store for the bulk-skip scenario: course 1 exists, nobody enrolled. -/
def dbBulk : DB := { emptyDB with courses := [course1] }

/-- Title used for a concretely created lesson. -/
def titleL3 : String := "Lesson three"

/-- Duration used for a concretely created lesson. -/
def durL3 : String := "10m"

/-- The single module of `dbLessons`. -/
def module5 : ModuleRec := { id := 5, course_id := 1, title := "M1", order := 1 }

/-- First lesson of module 5, order 1. -/
def lesson11 : LessonRec :=
  { id := 11, module_id := 5, title := "L1", duration := "5m", order := 1 }

/-- Second lesson of module 5, order 2. -/
def lesson12 : LessonRec :=
  { id := 12, module_id := 5, title := "L2", duration := "5m", order := 2 }

/-- Store with course 1, module 5, and two lessons of orders 1 and 2. -/
def dbLessons : DB :=
  { emptyDB with
      courses := [course1]
      modules := [module5]
      lessons := [lesson11, lesson12] }

/-- Title used for a concretely created module. -/
def titleM2 : String := "Module two"

/-- A concrete subject string. -/
def subU1 : String := "user-1"

/-- A concrete encoded token string. -/
def tokStub : String := "token"

/-- A codec that decodes every token to an access-type payload. -/
def decodeStub : String → Option TokenPayload :=
  fun _ => some { sub := some subU1, type := some strAccess }

/-- A concrete graded submission (score 80) for assignment 21. -/
def sub80 : Submission :=
  { assignment_id := 21, student_id := 7, submission_text := none,
    submission_file := none, submitted_at := 50, status := stSubmitted,
    score := some 80 }

/-- A concrete ungraded submission for assignment 22. -/
def subNull : Submission :=
  { assignment_id := 22, student_id := 7, submission_text := none,
    submission_file := none, submitted_at := 50, status := stSubmitted,
    score := none }

/-- A concrete assignment 21 of course 1 with deadline 100. -/
def asg21 : Assignment :=
  { id := 21, course := 1, teacher_id := 9, title := "hw", deadline := 100 }

/-- Store for the duplicate-submission scenario: assignment 21 of
course 1 (deadline 100), student 7 enrolled and already submitted. -/
def dbSubmit : DB :=
  { emptyDB with
      courses := [course1]
      enrollments := [enr17]
      assignments := [asg21]
      assignment_submissions := [sub80] }

/-- A registered email address. -/
def emailReg : String := "reg@example.com"

/-- An unregistered email address. -/
def emailMissing : String := "missing@example.com"

/-- A concrete six-digit OTP. -/
def otpStub : String := "123456"

/-- The single registered user. -/
def userAlice : UserRec :=
  { id := 1, email := emailReg, username := "alice", role := "student" }

/-- Store with a single registered user, `emailReg`. -/
def dbForgot : DB :=
  { emptyDB with users := [userAlice] }

/-- `dbAtt` with one attendance record already present for the key
(course 1, student 7, date 3). -/
def dbAttUpd : DB := { dbAtt with attendance := [attRec 3 stAbsent] }

/-- The user document of student 7. -/
def user7 : UserRec :=
  { id := 7, email := "s7@example.com", username := "s7", role := "student" }

/-- `dbAtt` extended with the user document of student 7. -/
def dbCStud : DB := { dbAtt with users := [user7] }

/-- The single progress entry produced by `get_student_progress` on
`dbAtt` for student 7 (no submissions, no attendance records). -/
def pEntry : ProgressEntry :=
  { course_id := 1, progress := 0,
    score := roundHalfEven (calcScore (submissionsFor dbAtt 1 7)),
    attendance := roundHalfEven (courseAttendancePct dbAtt 1 7),
    completed := decide ((0 : ℚ) ≥ 100) }

/-- The single entry produced by `get_course_students` on `dbCStud` for
course 1 (no submissions, no attendance records). -/
def cEntry : CourseStudentEntry :=
  { student_id := 7, progress := 0, status := "Active",
    attendance := roundHalfEven (courseAttendancePct dbCStud 1 7),
    performance := roundHalfEven (calcScore (submissionsFor dbCStud 1 7)) }

theorem roundHalfEven_intCast (n : ℤ) : roundHalfEven (n : ℚ) = n := by
  unfold roundHalfEven
  rw [Int.floor_intCast]
  norm_num

theorem roundHalfEven_zero : roundHalfEven 0 = 0 := by
  simpa using roundHalfEven_intCast 0

theorem roundHalfEven_natCast (n : ℕ) : roundHalfEven (n : ℚ) = n := by
  have h := roundHalfEven_intCast (n : ℤ)
  simpa using h

theorem round2_intCast (n : ℤ) : round2 (n : ℚ) = n := by
  unfold round2
  have h : ((n : ℚ) * 100) = ((n * 100 : ℤ) : ℚ) := by push_cast; ring
  rw [h, roundHalfEven_intCast]
  push_cast
  ring

theorem round2_zero : round2 0 = 0 := by
  simpa using round2_intCast 0

theorem round2_natCast (n : ℕ) : round2 (n : ℚ) = n := by
  have h := round2_intCast (n : ℤ)
  simpa using h

theorem countP_updateFirst (p q : α → Bool) (f : α → α) (l : List α)
    (h : ∀ a, q (f a) = q a) :
    (updateFirst p f l).countP q = l.countP q := by
  induction l with
  | nil => rfl
  | cons x xs ih =>
    by_cases hx : p x
    · simp [updateFirst, hx, List.countP_cons, h]
    · simp [updateFirst, hx, List.countP_cons, ih]

theorem length_updateFirst (p : α → Bool) (f : α → α) (l : List α) :
    (updateFirst p f l).length = l.length := by
  induction l with
  | nil => rfl
  | cons x xs ih =>
    by_cases hx : p x
    · simp [updateFirst, hx]
    · simp [updateFirst, hx, ih]

theorem countP_eq_zero_of_find?_eq_none (p : α → Bool) (l : List α)
    (h : l.find? p = none) : l.countP p = 0 := by
  rw [List.find?_eq_none] at h
  rw [List.countP_eq_zero]
  exact h

theorem find?_append_of_none (p : α → Bool) (l₁ l₂ : List α)
    (h : l₁.find? p = none) : (l₁ ++ l₂).find? p = l₂.find? p := by
  induction l₁ with
  | nil => rfl
  | cons x xs ih =>
    rw [List.find?_cons] at h
    rcases hx : p x with _ | _
    · rw [hx] at h
      rw [List.cons_append, List.find?_cons, hx]
      exact ih h
    · rw [hx] at h
      exact absurd h (by simp)

theorem find?_updateFirst (p : α → Bool) (f : α → α) (l : List α)
    (hf : ∀ a, p a = true → p (f a) = true) :
    (updateFirst p f l).find? p = (l.find? p).map f := by
  induction l with
  | nil => rfl
  | cons x xs ih =>
    by_cases hx : p x
    · simp [updateFirst, hx, List.find?_cons, hf x hx]
    · simp [updateFirst, hx, List.find?_cons, ih]

theorem le_foldl_max (l : List Nat) (a : Nat) : a ≤ l.foldl Nat.max a := by
  induction l generalizing a with
  | nil => exact Nat.le_refl a
  | cons x xs ih =>
    exact Nat.le_trans (Nat.le_max_left a x) (ih (Nat.max a x))

theorem mem_le_foldl_max (l : List Nat) (x : Nat) (hx : x ∈ l) :
    ∀ a, x ≤ l.foldl Nat.max a := by
  induction l with
  | nil => cases hx
  | cons y ys ih =>
    intro a
    rcases List.mem_cons.mp hx with h | h
    · subst h
      exact Nat.le_trans (Nat.le_max_right a x) (le_foldl_max ys (Nat.max a x))
    · exact ih h (Nat.max a y)

theorem foldl_max_eq_or_mem (l : List Nat) (a : Nat) :
    l.foldl Nat.max a = a ∨ l.foldl Nat.max a ∈ l := by
  induction l generalizing a with
  | nil => exact Or.inl rfl
  | cons x xs ih =>
    rcases ih (Nat.max a x) with h | h
    · rcases Nat.le_total a x with hle | hle
      · have hx : Nat.max a x = x := Nat.max_eq_right hle
        exact Or.inr (by
          rw [List.foldl_cons, h, hx]
          exact List.mem_cons_self _ _)
      · have hx : Nat.max a x = a := Nat.max_eq_left hle
        exact Or.inl (by rw [List.foldl_cons, h, hx])
    · exact Or.inr (List.mem_cons_of_mem _ h)

theorem resolvesInAuth_jwt_false : resolvesInAuth nameJwt = false := by decide

theorem resolvesInAuth_datetime_false : resolvesInAuth nameDatetime = false := by
  decide

theorem refreshTokenLogic_wrong_type (decode : String → Option TokenPayload)
    (tok : String) (p : TokenPayload) (hdec : decode tok = some p)
    (htype : p.type ≠ some strRefresh) :
    refreshTokenLogic decode tok = .httpError 401 msgInvalidTokenType := by
  unfold refreshTokenLogic
  rw [hdec]
  simp [htype]

/-- C7: presenting a token whose decoded type tag is "access" to the
refresh endpoint issues no tokens — but the endpoint cannot answer 401 as
the spec says: auth.py never imports `jwt`, so line 140 raises NameError
and the request dies with HTTP 500 before the type-tag check runs,
regardless of the token's expiry (the decode result is never consulted). -/
theorem C7_refresh_wrong_type_bug (decode : String → Option TokenPayload)
    (tok : String) (p : TokenPayload) (hdec : decode tok = some p)
    (htype : p.type = some strAccess) :
    refresh_token decode (some tok) = .pyError pyNameErrorJwt ∧
    (∀ x y, refresh_token decode (some tok) ≠ .issued x y) ∧
    refresh_token decode (some tok) ≠ .httpError 401 msgInvalidTokenType := by
  unfold refresh_token
  rw [resolvesInAuth_jwt_false]
  refine ⟨rfl, ?_, ?_⟩
  · intro x y
    simp
  · simp

/-- Witness for C7 at a concrete codec and token. -/
theorem C7_refresh_wrong_type_bug_witness :
    refresh_token decodeStub (some tokStub) = .pyError pyNameErrorJwt ∧
    (∀ x y, refresh_token decodeStub (some tokStub) ≠ .issued x y) ∧
    refresh_token decodeStub (some tokStub) ≠ .httpError 401 msgInvalidTokenType :=
  C7_refresh_wrong_type_bug decodeStub tokStub
    { sub := some subU1, type := some strAccess } rfl rfl

/-- C9: the anti-enumeration policy is broken by auth.py as written: a
forgot-password request for an unregistered email returns the generic
success message, but for a registered email the handler evaluates
`datetime.utcnow()` (line 213) and `datetime` is not imported, so the
request dies with NameError (HTTP 500); the two observable responses
differ, disclosing that the email exists. -/
theorem C9_forgot_password_enumeration_bug :
    (forgot_password dbForgot 0 otpStub emailReg).1 = .pyError pyNameErrorDatetime ∧
    (forgot_password dbForgot 0 otpStub emailMissing).1 = .ok msgForgot ∧
    (forgot_password dbForgot 0 otpStub emailReg).1 ≠
      (forgot_password dbForgot 0 otpStub emailMissing).1 := by
  refine ⟨?_, ?_, ?_⟩ <;> decide

/-- C4: enrolling a student who is not already enrolled into a course
whose enrolled counter has reached capacity fails with the Capacity
error and leaves the whole store untouched. -/
theorem C4_capacity_no_writes (db : DB) (now cid sid : Nat) (c : Course)
    (hc : db.courses.find? (fun x => x.id == cid) = some c)
    (he : db.enrollments.find?
      (fun e => e.course_id == cid && e.student_id == sid) = none)
    (hfull : c.studentsEnrolled ≥ c.maxStudents) :
    enroll_in_course db now cid sid = (.httpError 400 msgCourseFull, db) := by
  unfold enroll_in_course
  rw [hc, he]
  simp [hfull]

/-- Witness for C4: course 1 of `dbFull` has 2 of 2 seats taken. -/
theorem C4_capacity_no_writes_witness :
    enroll_in_course dbFull 0 1 7 = (.httpError 400 msgCourseFull, dbFull) :=
  C4_capacity_no_writes dbFull 0 1 7 { course1 with studentsEnrolled := 2 }
    (by decide) (by decide) (by decide)

/-- C3: with course found, the pair not yet enrolled and a free seat, the
first enroll call succeeds, inserting exactly one enrollment with
progress 0 and status Active and bumping the course counter by one; the
second call for the same pair fails with the Conflict error (HTTP 400,
"Already enrolled in this course") and changes nothing, so across the two
calls the counter has grown exactly once. -/
theorem C3_duplicate_enrollment (db : DB) (now now2 cid sid : Nat) (c : Course)
    (hc : db.courses.find? (fun x => x.id == cid) = some c)
    (he : db.enrollments.find?
      (fun e => e.course_id == cid && e.student_id == sid) = none)
    (hcap : c.studentsEnrolled < c.maxStudents) :
    (enroll_in_course db now cid sid).1 = .ok msgEnrollOk ∧
    (enroll_in_course db now cid sid).2.enrollments =
      db.enrollments ++ [mkEnrollment cid sid now] ∧
    (mkEnrollment cid sid now).progress = 0 ∧
    (mkEnrollment cid sid now).status = "Active" ∧
    (enroll_in_course db now cid sid).2.courses.find? (fun x => x.id == cid) =
      some (bumpEnrolledCount c) ∧
    (bumpEnrolledCount c).studentsEnrolled = c.studentsEnrolled + 1 ∧
    enroll_in_course (enroll_in_course db now cid sid).2 now2 cid sid =
      (.httpError 400 msgAlreadyEnrolled, (enroll_in_course db now cid sid).2) := by
  have hnot : ¬ (c.studentsEnrolled ≥ c.maxStudents) := Nat.not_le.mpr hcap
  have hbump : ∀ x : Course, (x.id == cid) = true →
      ((bumpEnrolledCount x).id == cid) = true := by
    intro x hx
    simpa [bumpEnrolledCount] using hx
  have key : enroll_in_course db now cid sid = (.ok msgEnrollOk,
      { db with
          enrollments := db.enrollments ++ [mkEnrollment cid sid now]
          courses := updateFirst (fun x => x.id == cid) bumpEnrolledCount
            db.courses }) := by
    simp only [enroll_in_course, hc, he]
    rw [if_neg hnot]
  have hfind2 : (updateFirst (fun x => x.id == cid) bumpEnrolledCount
      db.courses).find? (fun x => x.id == cid) = some (bumpEnrolledCount c) := by
    rw [find?_updateFirst _ _ _ hbump, hc]
    rfl
  have hfinde : (db.enrollments ++ [mkEnrollment cid sid now]).find?
      (fun e => e.course_id == cid && e.student_id == sid) =
      some (mkEnrollment cid sid now) := by
    rw [find?_append_of_none _ _ _ he]
    simp [List.find?_cons, mkEnrollment]
  rw [key]
  refine ⟨rfl, rfl, rfl, rfl, hfind2, rfl, ?_⟩
  simp only [enroll_in_course, hfind2, hfinde]

/-- Witness for C3 at the concrete store `dbEnroll`. -/
theorem C3_duplicate_enrollment_witness :
    (enroll_in_course dbEnroll 0 1 7).1 = .ok msgEnrollOk ∧
    (enroll_in_course dbEnroll 0 1 7).2.enrollments =
      dbEnroll.enrollments ++ [mkEnrollment 1 7 0] ∧
    (mkEnrollment 1 7 0).progress = 0 ∧
    (mkEnrollment 1 7 0).status = "Active" ∧
    (enroll_in_course dbEnroll 0 1 7).2.courses.find? (fun x => x.id == 1) =
      some (bumpEnrolledCount course1) ∧
    (bumpEnrolledCount course1).studentsEnrolled = course1.studentsEnrolled + 1 ∧
    enroll_in_course (enroll_in_course dbEnroll 0 1 7).2 1 1 7 =
      (.httpError 400 msgAlreadyEnrolled, (enroll_in_course dbEnroll 0 1 7).2) :=
  C3_duplicate_enrollment dbEnroll 0 1 1 7 course1 (by decide) rfl (by decide)

/-- C8: a second submission by the same student for the same assignment
inserts nothing — the store is unchanged — but the endpoint cannot answer
the intended Conflict: `submit_assignment` rebinds the name `status` to
the computed status string, so `status.HTTP_400_BAD_REQUEST` on the
duplicate branch is an attribute access on a plain string and the request
dies with AttributeError (HTTP 500) instead of an HTTPException. -/
theorem C8_duplicate_submission_bug (db : DB) (now sid aid : Nat)
    (text fil : Option String) (a : Assignment) (s0 : Submission)
    (ha : db.assignments.find? (fun x => x.id == aid) = some a)
    (he : (db.enrollments.find?
      (fun e => e.course_id == a.course && e.student_id == sid)).isSome)
    (hs : db.assignment_submissions.find?
      (fun s => s.assignment_id == aid && s.student_id == sid) = some s0) :
    (submit_assignment db now sid aid text fil).2 = db ∧
    (submit_assignment db now sid aid text fil).1 =
      .pyError (pyStrAttrPre ++ attrHTTP400) ∧
    (∀ code detail,
      (submit_assignment db now sid aid text fil).1 ≠ .httpError code detail) ∧
    (∀ m, (submit_assignment db now sid aid text fil).1 ≠ .ok m) := by
  obtain ⟨e, he'⟩ := Option.isSome_iff_exists.mp he
  have key : submit_assignment db now sid aid text fil =
      (pyLocalStatusAttr (some (if now > a.deadline then stLate else stSubmitted))
        attrHTTP400, db) := by
    simp only [submit_assignment, ha, he', hs]
  rw [key]
  refine ⟨rfl, rfl, ?_, ?_⟩
  · intro code detail
    simp [pyLocalStatusAttr]
  · intro m
    simp [pyLocalStatusAttr]

/-- Witness for C8 at the concrete store `dbSubmit`. -/
theorem C8_duplicate_submission_bug_witness :
    (submit_assignment dbSubmit 150 7 21 none none).2 = dbSubmit ∧
    (submit_assignment dbSubmit 150 7 21 none none).1 =
      .pyError (pyStrAttrPre ++ attrHTTP400) ∧
    (∀ code detail,
      (submit_assignment dbSubmit 150 7 21 none none).1 ≠ .httpError code detail) ∧
    (∀ m, (submit_assignment dbSubmit 150 7 21 none none).1 ≠ .ok m) :=
  C8_duplicate_submission_bug dbSubmit 150 7 21 none none asg21 sub80
    (by decide) (by decide) (by decide)

/-- C10: in a bulk attendance call every record whose student is not
enrolled is skipped silently (the step writes nothing for it), a bulk
call all of whose records are skipped returns the success message with
the store untouched, while the single-record endpoint answers 404
"Student not enrolled in this course" for a non-enrolled student. -/
theorem C10_bulk_skip (db : DB) (teacher now : Nat) (b : AttendanceBulkCreate)
    (a : AttendanceCreate)
    (hcb : (db.courses.find?
      (fun c => c.id == b.course_id && c.teacher_id == teacher)).isSome)
    (hall : ∀ r ∈ b.records, db.enrollments.find?
      (fun e => e.course_id == b.course_id && e.student_id == r.student_id) = none)
    (hca : (db.courses.find?
      (fun c => c.id == a.course_id && c.teacher_id == teacher)).isSome)
    (hea : db.enrollments.find?
      (fun e => e.course_id == a.course_id && e.student_id == a.student_id) = none) :
    (∀ (db' : DB) (r : BulkRec), db'.enrollments.find?
        (fun e => e.course_id == b.course_id && e.student_id == r.student_id) = none →
      bulkStep teacher now b.course_id b.date db' r = db') ∧
    bulk_record_attendance db teacher now b = (.ok msgAttBulk, db) ∧
    record_attendance db teacher now a =
      (.httpError 404 msgStudentNotEnrolled, db) := by
  have hskip : ∀ (db' : DB) (r : BulkRec), db'.enrollments.find?
      (fun e => e.course_id == b.course_id && e.student_id == r.student_id) = none →
      bulkStep teacher now b.course_id b.date db' r = db' := by
    intro db' r h
    simp only [bulkStep, h]
  refine ⟨hskip, ?_, ?_⟩
  · obtain ⟨c, hc⟩ := Option.isSome_iff_exists.mp hcb
    have hfold : ∀ rs : List BulkRec,
        (∀ r ∈ rs, db.enrollments.find?
          (fun e => e.course_id == b.course_id && e.student_id == r.student_id) = none) →
        rs.foldl (bulkStep teacher now b.course_id b.date) db = db := by
      intro rs
      induction rs with
      | nil => intro _; rfl
      | cons r rs ih =>
        intro hrs
        rw [List.foldl_cons, hskip db r (hrs r (List.mem_cons_self _ _))]
        exact ih (fun x hx => hrs x (List.mem_cons_of_mem _ hx))
    simp only [bulk_record_attendance, hc]
    rw [hfold b.records hall]
  · obtain ⟨c, hc⟩ := Option.isSome_iff_exists.mp hca
    simp only [record_attendance, hc, hea]

theorem attKeyMatches_setAttFields (c s dd : Nat) (st : String)
    (tm nt : Option String) (r : AttRecord) :
    attKeyMatches c s dd (setAttFields st tm nt r) = attKeyMatches c s dd r := rfl

theorem attKeyMatches_mkAttRecord (c s dd cid sid d : Nat) (st : String)
    (tm nt : Option String) (teacher now : Nat) :
    attKeyMatches c s dd (mkAttRecord cid sid d st tm nt teacher now) =
      ((cid == c) && (sid == s) && (d == dd)) := rfl

theorem attUpsert_unique (l : List AttRecord) (cid sid d : Nat) (st : String)
    (tm nt : Option String) (teacher now : Nat)
    (h : ∀ c s dd, l.countP (attKeyMatches c s dd) ≤ 1) :
    (∀ c s dd, ((updateFirst (attKeyMatches cid sid d) (setAttFields st tm nt)
      l).countP (attKeyMatches c s dd)) ≤ 1) ∧
    (l.find? (attKeyMatches cid sid d) = none →
      ∀ c s dd, ((l ++ [mkAttRecord cid sid d st tm nt teacher now]).countP
        (attKeyMatches c s dd)) ≤ 1) := by
  constructor
  · intro c s dd
    rw [countP_updateFirst _ _ _ _ (fun r => attKeyMatches_setAttFields c s dd st tm nt r)]
    exact h c s dd
  · intro hnone c s dd
    rw [List.countP_append]
    cases hm : attKeyMatches c s dd (mkAttRecord cid sid d st tm nt teacher now) with
    | false =>
      have h1 : (([mkAttRecord cid sid d st tm nt teacher now] :
          List AttRecord).countP (attKeyMatches c s dd)) = 0 := by
        simp [List.countP_cons, hm]
      rw [h1]
      simpa using h c s dd
    | true =>
      rw [attKeyMatches_mkAttRecord] at hm
      have hkey : (cid = c ∧ sid = s) ∧ d = dd := by
        simpa using hm
      obtain ⟨⟨rfl, rfl⟩, rfl⟩ := hkey
      have h0 : l.countP (attKeyMatches cid sid d) = 0 :=
        countP_eq_zero_of_find?_eq_none _ _ hnone
      rw [h0]
      simp [List.countP_cons, attKeyMatches_mkAttRecord]

theorem record_attendance_unique (db : DB) (teacher now : Nat)
    (a : AttendanceCreate) (h : attUnique db) :
    attUnique (record_attendance db teacher now a).2 := by
  intro c s dd
  rcases hfc : db.courses.find?
      (fun x => x.id == a.course_id && x.teacher_id == teacher) with _ | co
  · simpa [record_attendance, hfc] using h c s dd
  · rcases hfe : db.enrollments.find?
        (fun e => e.course_id == a.course_id && e.student_id == a.student_id) with _ | e
    · simpa [record_attendance, hfc, hfe] using h c s dd
    · rcases hfa : db.attendance.find?
          (attKeyMatches a.course_id a.student_id a.date) with _ | r0
      · simp only [record_attendance, hfc, hfe, hfa]
        exact (attUpsert_unique db.attendance a.course_id a.student_id a.date
          a.status a.time a.note teacher now h).2 hfa c s dd
      · simp only [record_attendance, hfc, hfe, hfa]
        exact (attUpsert_unique db.attendance a.course_id a.student_id a.date
          a.status a.time a.note teacher now h).1 c s dd

theorem bulkStep_unique (teacher now cid d : Nat) (db : DB) (r : BulkRec)
    (h : attUnique db) : attUnique (bulkStep teacher now cid d db r) := by
  intro c s dd
  rcases hfe : db.enrollments.find?
      (fun e => e.course_id == cid && e.student_id == r.student_id) with _ | e
  · simpa [bulkStep, hfe] using h c s dd
  · rcases hfa : db.attendance.find?
        (attKeyMatches cid r.student_id d) with _ | r0
    · simp only [bulkStep, hfe, hfa]
      exact (attUpsert_unique db.attendance cid r.student_id d
        r.status r.time r.note teacher now h).2 hfa c s dd
    · simp only [bulkStep, hfe, hfa]
      exact (attUpsert_unique db.attendance cid r.student_id d
        r.status r.time r.note teacher now h).1 c s dd

theorem bulk_record_attendance_unique (db : DB) (teacher now : Nat)
    (b : AttendanceBulkCreate) (h : attUnique db) :
    attUnique (bulk_record_attendance db teacher now b).2 := by
  rcases hfc : db.courses.find?
      (fun x => x.id == b.course_id && x.teacher_id == teacher) with _ | co
  · simpa [bulk_record_attendance, hfc] using h
  · simp only [bulk_record_attendance, hfc]
    have hfold : ∀ (rs : List BulkRec) (d0 : DB), attUnique d0 →
        attUnique (rs.foldl (bulkStep teacher now b.course_id b.date) d0) := by
      intro rs
      induction rs with
      | nil => intro d0 h0; exact h0
      | cons x xs ih =>
        intro d0 h0
        rw [List.foldl_cons]
        exact ih _ (bulkStep_unique teacher now b.course_id b.date d0 x h0)
    exact hfold b.records db h

theorem applyAttOp_unique (db : DB) (op : AttOp) (h : attUnique db) :
    attUnique (applyAttOp db op) := by
  cases op with
  | single teacher now a => exact record_attendance_unique db teacher now a h
  | bulk teacher now b => exact bulk_record_attendance_unique db teacher now b h

/-- C5: attendance uniqueness per (course, student, date). Starting from
any store satisfying the invariant, any sequence of single or bulk
attendance-recording calls preserves "at most one record per key"; a
single-record call whose key already has a record answers the update
message and changes no list length and no per-key count (update in
place); a call for a fresh key answers the recorded message, appends
exactly one record, and leaves that key with exactly one record. -/
theorem C5_attendance_upsert_unique :
    (∀ (db : DB) (ops : List AttOp), attUnique db →
      attUnique (ops.foldl applyAttOp db)) ∧
    (∀ (db : DB) (teacher now : Nat) (a : AttendanceCreate) (r0 : AttRecord),
      (db.courses.find?
        (fun x => x.id == a.course_id && x.teacher_id == teacher)).isSome →
      (db.enrollments.find?
        (fun e => e.course_id == a.course_id && e.student_id == a.student_id)).isSome →
      db.attendance.find? (attKeyMatches a.course_id a.student_id a.date) = some r0 →
      (record_attendance db teacher now a).1 = .ok msgAttUpdated ∧
      (record_attendance db teacher now a).2.attendance.length =
        db.attendance.length ∧
      (∀ c s dd, attCount (record_attendance db teacher now a).2.attendance c s dd =
        attCount db.attendance c s dd)) ∧
    (∀ (db : DB) (teacher now : Nat) (a : AttendanceCreate),
      (db.courses.find?
        (fun x => x.id == a.course_id && x.teacher_id == teacher)).isSome →
      (db.enrollments.find?
        (fun e => e.course_id == a.course_id && e.student_id == a.student_id)).isSome →
      db.attendance.find? (attKeyMatches a.course_id a.student_id a.date) = none →
      (record_attendance db teacher now a).1 = .ok msgAttRecorded ∧
      (record_attendance db teacher now a).2.attendance = db.attendance ++
        [mkAttRecord a.course_id a.student_id a.date a.status a.time a.note teacher now] ∧
      attCount (record_attendance db teacher now a).2.attendance
        a.course_id a.student_id a.date = 1) := by
  refine ⟨?_, ?_, ?_⟩
  · intro db ops h
    induction ops generalizing db with
    | nil => exact h
    | cons op ops ih =>
      rw [List.foldl_cons]
      exact ih _ (applyAttOp_unique db op h)
  · intro db teacher now a r0 hc he hfa
    obtain ⟨co, hco⟩ := Option.isSome_iff_exists.mp hc
    obtain ⟨e, he'⟩ := Option.isSome_iff_exists.mp he
    have key : record_attendance db teacher now a = (.ok msgAttUpdated,
        { db with attendance := updateFirst (attKeyMatches a.course_id a.student_id a.date) (setAttFields a.status a.time a.note) db.attendance }) := by
      simp only [record_attendance, hco, he', hfa]
    rw [key]
    refine ⟨rfl, length_updateFirst _ _ _, ?_⟩
    intro c s dd
    unfold attCount
    exact countP_updateFirst _ _ _ _
      (fun r => attKeyMatches_setAttFields c s dd a.status a.time a.note r)
  · intro db teacher now a hc he hfa
    obtain ⟨co, hco⟩ := Option.isSome_iff_exists.mp hc
    obtain ⟨e, he'⟩ := Option.isSome_iff_exists.mp he
    have key : record_attendance db teacher now a = (.ok msgAttRecorded,
        { db with attendance := db.attendance ++ [mkAttRecord a.course_id a.student_id a.date a.status a.time a.note teacher now] }) := by
      simp only [record_attendance, hco, he', hfa]
    rw [key]
    refine ⟨rfl, rfl, ?_⟩
    unfold attCount
    rw [List.countP_append,
      countP_eq_zero_of_find?_eq_none _ _ hfa]
    simp [List.countP_cons, attKeyMatches_mkAttRecord]

/-- Witness for C5: the empty-attendance store `dbAtt`, a fresh-key
insert, and an update on `dbAttUpd` whose key is already present. -/
theorem C5_attendance_upsert_unique_witness :
    attUnique ([AttOp.single 9 0 attReq,
      AttOp.bulk 9 1 bulkReq].foldl applyAttOp dbAtt) ∧
    ((record_attendance dbAttUpd 9 1 attReq).1 = .ok msgAttUpdated ∧
      (record_attendance dbAttUpd 9 1 attReq).2.attendance.length =
        dbAttUpd.attendance.length ∧
      (∀ c s dd, attCount (record_attendance dbAttUpd 9 1 attReq).2.attendance c s dd =
        attCount dbAttUpd.attendance c s dd)) ∧
    ((record_attendance dbAtt 9 0 attReq).1 = .ok msgAttRecorded ∧
      (record_attendance dbAtt 9 0 attReq).2.attendance = dbAtt.attendance ++
        [mkAttRecord attReq.course_id attReq.student_id attReq.date
          attReq.status attReq.time attReq.note 9 0] ∧
      attCount (record_attendance dbAtt 9 0 attReq).2.attendance
        attReq.course_id attReq.student_id attReq.date = 1) := by
  refine ⟨?_, ?_, ?_⟩
  · exact C5_attendance_upsert_unique.1 dbAtt
      [AttOp.single 9 0 attReq, AttOp.bulk 9 1 bulkReq]
      (by intro c s dd; simp [dbAtt, emptyDB, attCount])
  · exact C5_attendance_upsert_unique.2.1 dbAttUpd 9 1 attReq
      (attRec 3 stAbsent) (by decide) (by decide) (by decide)
  · exact C5_attendance_upsert_unique.2.2 dbAtt 9 0 attReq
      (by decide) (by decide) rfl

/-- Witness for C10 at the concrete store `dbBulk` (nobody enrolled). -/
theorem C10_bulk_skip_witness :
    (∀ (db' : DB) (r : BulkRec), db'.enrollments.find?
        (fun e => e.course_id == bulkReq.course_id && e.student_id == r.student_id) = none →
      bulkStep 9 0 bulkReq.course_id bulkReq.date db' r = db') ∧
    bulk_record_attendance dbBulk 9 0 bulkReq = (.ok msgAttBulk, dbBulk) ∧
    record_attendance dbBulk 9 0 attReq =
      (.httpError 404 msgStudentNotEnrolled, dbBulk) :=
  C10_bulk_skip dbBulk 9 0 bulkReq attReq (by decide)
    (fun r hr => rfl) (by decide) rfl

theorem nextOrder_spec (orders : List Nat) :
    (orders = [] → nextOrder orders = 1) ∧
    (∀ x ∈ orders, x < nextOrder orders) ∧
    (orders ≠ [] → ∃ x ∈ orders, nextOrder orders = x + 1) := by
  refine ⟨?_, ?_, ?_⟩
  · intro h
    subst h
    rfl
  · intro x hx
    exact Nat.lt_succ_of_le (mem_le_foldl_max orders x hx 0)
  · intro hne
    rcases foldl_max_eq_or_mem orders 0 with h0 | hmem
    · rcases List.exists_mem_of_ne_nil orders hne with ⟨x, hx⟩
      have hx0 : x = 0 := Nat.le_antisymm (h0 ▸ mem_le_foldl_max orders x hx 0)
        (Nat.zero_le x)
      exact ⟨x, hx, by rw [nextOrder, h0, hx0]⟩
    · exact ⟨_, hmem, rfl⟩

/-- C6 counterexample: the claim "order values freed by deletion are
never reused" is false. In `dbLessons`, lesson 12 holds order 2;
deleting it and then creating a new lesson under the same module assigns
the new lesson order `max(remaining)+1 = 2` — exactly the freed value. -/
theorem C6_order_reuse_cex :
    (dbLessons.lessons.find? (fun l => l.id == 12)).map (fun l => l.order) =
      some 2 ∧
    (delete_lesson dbLessons 9 1 5 12).1 = .ok msgLessonDeleted ∧
    (delete_lesson dbLessons 9 1 5 12).2.lessons.map (fun l => l.id) = [11] ∧
    ((create_lesson (delete_lesson dbLessons 9 1 5 12).2 9 1 5 titleL3 durL3
      13).2.lessons.find? (fun l => l.id == 13)).map (fun l => l.order) =
      some 2 := by
  refine ⟨?_, ?_, ?_, ?_⟩ <;> decide

/-- C6 (amended): a new module's (resp. lesson's) order is the maximum
sibling order plus one, or 1 with no siblings; deleting a lesson removes
exactly that lesson, leaving every remaining sibling — and its order —
unchanged; and a freed order value is only reused when the deleted
lesson held the maximum order: while some remaining sibling has an
order at least as large, the next assigned order is strictly larger. -/
theorem C6_order_assignment_amended :
    (∀ (db : DB) (teacher cid newId : Nat) (title : String) (c : Course),
      db.courses.find? (fun x => x.id == cid && x.teacher_id == teacher) = some c →
      (create_module db teacher cid title newId).1 = .ok msgModuleCreated ∧
      (create_module db teacher cid title newId).2.modules = db.modules ++
        [mkModule newId cid title (nextOrder ((db.modules.filter
          (fun m => m.course_id == cid)).map (fun m => m.order)))] ∧
      (db.modules.filter (fun m => m.course_id == cid) = [] →
        nextOrder ((db.modules.filter (fun m => m.course_id == cid)).map
          (fun m => m.order)) = 1) ∧
      (∀ m ∈ db.modules.filter (fun m => m.course_id == cid),
        m.order < nextOrder ((db.modules.filter (fun m => m.course_id == cid)).map
          (fun m => m.order))) ∧
      (db.modules.filter (fun m => m.course_id == cid) ≠ [] →
        ∃ m ∈ db.modules.filter (fun m => m.course_id == cid),
          nextOrder ((db.modules.filter (fun m => m.course_id == cid)).map
            (fun m => m.order)) = m.order + 1)) ∧
    (∀ (db : DB) (teacher cid mid newId : Nat) (title duration : String)
      (c : Course) (m0 : ModuleRec),
      db.courses.find? (fun x => x.id == cid && x.teacher_id == teacher) = some c →
      db.modules.find? (fun m => m.id == mid && m.course_id == cid) = some m0 →
      (create_lesson db teacher cid mid title duration newId).1 = .ok msgLessonCreated ∧
      (create_lesson db teacher cid mid title duration newId).2.lessons =
        db.lessons ++ [mkLesson newId mid title duration
          (nextOrder ((db.lessons.filter (fun l => l.module_id == mid)).map
            (fun l => l.order)))] ∧
      (db.lessons.filter (fun l => l.module_id == mid) = [] →
        nextOrder ((db.lessons.filter (fun l => l.module_id == mid)).map
          (fun l => l.order)) = 1) ∧
      (∀ l ∈ db.lessons.filter (fun l => l.module_id == mid),
        l.order < nextOrder ((db.lessons.filter (fun l => l.module_id == mid)).map
          (fun l => l.order))) ∧
      (db.lessons.filter (fun l => l.module_id == mid) ≠ [] →
        ∃ l ∈ db.lessons.filter (fun l => l.module_id == mid),
          nextOrder ((db.lessons.filter (fun l => l.module_id == mid)).map
            (fun l => l.order)) = l.order + 1)) ∧
    (∀ (db : DB) (teacher cid mid lid : Nat) (c : Course) (m0 : ModuleRec)
      (l0 : LessonRec),
      db.courses.find? (fun x => x.id == cid && x.teacher_id == teacher) = some c →
      db.modules.find? (fun m => m.id == mid && m.course_id == cid) = some m0 →
      db.lessons.find? (fun l => l.id == lid && l.module_id == mid) = some l0 →
      (delete_lesson db teacher cid mid lid).1 = .ok msgLessonDeleted ∧
      (delete_lesson db teacher cid mid lid).2.lessons =
        db.lessons.eraseP (fun l => l.id == lid) ∧
      (∀ l ∈ (delete_lesson db teacher cid mid lid).2.lessons, l ∈ db.lessons) ∧
      (delete_lesson db teacher cid mid lid).2.modules = db.modules) ∧
    (∀ (db : DB) (mid dfreed : Nat),
      (∃ l ∈ db.lessons.filter (fun l => l.module_id == mid), dfreed ≤ l.order) →
      dfreed < nextOrder ((db.lessons.filter (fun l => l.module_id == mid)).map
        (fun l => l.order))) := by
  refine ⟨?_, ?_, ?_, ?_⟩
  · intro db teacher cid newId title c hc
    have key : create_module db teacher cid title newId = (.ok msgModuleCreated,
        { db with
            modules := db.modules ++ [mkModule newId cid title (nextOrder ((db.modules.filter (fun m => m.course_id == cid)).map (fun m => m.order)))]
            courses := updateFirst (fun x => x.id == cid) (fun x => { x with hasModules := true }) db.courses }) := by
      simp only [create_module, hc]
    rw [key]
    have hspec := nextOrder_spec ((db.modules.filter
      (fun m => m.course_id == cid)).map (fun m => m.order))
    refine ⟨rfl, rfl, ?_, ?_, ?_⟩
    · intro hnil
      exact hspec.1 (by rw [hnil]; rfl)
    · intro m hm
      exact hspec.2.1 m.order (List.mem_map_of_mem _ hm)
    · intro hne
      have hne' : (db.modules.filter (fun m => m.course_id == cid)).map
          (fun m => m.order) ≠ [] := by
        simpa using hne
      rcases hspec.2.2 hne' with ⟨x, hx, hx1⟩
      rcases List.mem_map.mp hx with ⟨m, hm, rfl⟩
      exact ⟨m, hm, hx1⟩
  · intro db teacher cid mid newId title duration c m0 hc hm
    have key : create_lesson db teacher cid mid title duration newId =
        (.ok msgLessonCreated,
        { db with lessons := db.lessons ++ [mkLesson newId mid title duration (nextOrder ((db.lessons.filter (fun l => l.module_id == mid)).map (fun l => l.order)))] }) := by
      simp only [create_lesson, hc, hm]
    rw [key]
    have hspec := nextOrder_spec ((db.lessons.filter
      (fun l => l.module_id == mid)).map (fun l => l.order))
    refine ⟨rfl, rfl, ?_, ?_, ?_⟩
    · intro hnil
      exact hspec.1 (by rw [hnil]; rfl)
    · intro l hl
      exact hspec.2.1 l.order (List.mem_map_of_mem _ hl)
    · intro hne
      have hne' : (db.lessons.filter (fun l => l.module_id == mid)).map
          (fun l => l.order) ≠ [] := by
        simpa using hne
      rcases hspec.2.2 hne' with ⟨x, hx, hx1⟩
      rcases List.mem_map.mp hx with ⟨l, hl, rfl⟩
      exact ⟨l, hl, hx1⟩
  · intro db teacher cid mid lid c m0 l0 hc hm hl
    have key : delete_lesson db teacher cid mid lid = (.ok msgLessonDeleted,
        { db with lessons := db.lessons.eraseP (fun l => l.id == lid) }) := by
      simp only [delete_lesson, hc, hm, hl]
    rw [key]
    exact ⟨rfl, rfl, fun l hmem => List.eraseP_subset _ hmem, rfl⟩
  · intro db mid dfreed hex
    rcases hex with ⟨l, hl, hle⟩
    exact Nat.lt_of_le_of_lt hle ((nextOrder_spec _).2.1 l.order
      (List.mem_map_of_mem _ hl))

/-- Witness for the amended C6 at the concrete store `dbLessons`. -/
theorem C6_order_assignment_amended_witness :
    ((create_module dbLessons 9 1 titleM2 77).1 = .ok msgModuleCreated ∧
      (create_module dbLessons 9 1 titleM2 77).2.modules = dbLessons.modules ++
        [mkModule 77 1 titleM2 (nextOrder ((dbLessons.modules.filter
          (fun m => m.course_id == 1)).map (fun m => m.order)))] ∧
      (dbLessons.modules.filter (fun m => m.course_id == 1) = [] →
        nextOrder ((dbLessons.modules.filter (fun m => m.course_id == 1)).map
          (fun m => m.order)) = 1) ∧
      (∀ m ∈ dbLessons.modules.filter (fun m => m.course_id == 1),
        m.order < nextOrder ((dbLessons.modules.filter (fun m => m.course_id == 1)).map
          (fun m => m.order))) ∧
      (dbLessons.modules.filter (fun m => m.course_id == 1) ≠ [] →
        ∃ m ∈ dbLessons.modules.filter (fun m => m.course_id == 1),
          nextOrder ((dbLessons.modules.filter (fun m => m.course_id == 1)).map
            (fun m => m.order)) = m.order + 1)) ∧
    ((delete_lesson dbLessons 9 1 5 12).1 = .ok msgLessonDeleted ∧
      (delete_lesson dbLessons 9 1 5 12).2.lessons =
        dbLessons.lessons.eraseP (fun l => l.id == 12) ∧
      (∀ l ∈ (delete_lesson dbLessons 9 1 5 12).2.lessons, l ∈ dbLessons.lessons) ∧
      (delete_lesson dbLessons 9 1 5 12).2.modules = dbLessons.modules) ∧
    2 < nextOrder ((dbLessons.lessons.filter (fun l => l.module_id == 5)).map
      (fun l => l.order)) :=
  ⟨(C6_order_assignment_amended.1 dbLessons 9 1 77 titleM2 course1 (by decide)),
   ((C6_order_assignment_amended.2.2.1 dbLessons 9 1 5 12 course1 module5
      lesson12 (by decide) (by decide) (by decide))),
   (C6_order_assignment_amended.2.2.2 dbLessons 5 2
      ⟨lesson12, by decide, by decide⟩)⟩

theorem pEntry_mem : pEntry ∈ (get_student_progress dbAtt 7).1 := by
  have h : (get_student_progress dbAtt 7).1 = [pEntry] := by
    simp [get_student_progress, dbAtt, emptyDB, enr17, course1, pEntry]
  rw [h]
  exact List.mem_singleton_self pEntry

theorem cEntry_mem : cEntry ∈ get_course_students dbCStud 1 := by
  have h : get_course_students dbCStud 1 = [cEntry] := by
    simp [get_course_students, dbCStud, dbAtt, emptyDB, enr17, course1,
      user7, cEntry]
  rw [h]
  exact List.mem_singleton_self cEntry

/-- C2: the assignment performance score of a (student, course) scope —
computed identically by the student progress endpoint and the course
students endpoint via `calcScore` over `submissionsFor` — ignores
null-score submissions in both numerator and denominator, is 0 when no
graded submission exists, and otherwise equals
`sum(scores) / (graded_count * 100) * 100`, which coincides with the
plain mean of the graded scores. -/
theorem C2_performance_score :
    (∀ subs : List Submission,
      calcScore subs = calcScore (subs.filter (fun s => s.score.isSome))) ∧
    (∀ subs : List Submission, subs.filter (fun s => s.score.isSome) = [] →
      calcScore subs = 0) ∧
    (∀ subs : List Submission, subs.filter (fun s => s.score.isSome) ≠ [] →
      calcScore subs =
        ((subs.filter (fun s => s.score.isSome)).filterMap (fun s => s.score)).sum /
          (((subs.filter (fun s => s.score.isSome)).length : ℚ) * 100) * 100 ∧
      calcScore subs =
        ((subs.filter (fun s => s.score.isSome)).filterMap (fun s => s.score)).sum /
          ((subs.filter (fun s => s.score.isSome)).length : ℚ)) ∧
    (∀ (db : DB) (sid : Nat), ∀ entry ∈ (get_student_progress db sid).1,
      entry.score = roundHalfEven (calcScore (submissionsFor db entry.course_id sid))) ∧
    (∀ (db : DB) (cid : Nat), ∀ entry ∈ get_course_students db cid,
      entry.performance = roundHalfEven (calcScore (submissionsFor db cid entry.student_id))) := by
  have hformula : ∀ subs : List Submission,
      subs.filter (fun s => s.score.isSome) ≠ [] →
      calcScore subs =
        ((subs.filter (fun s => s.score.isSome)).filterMap (fun s => s.score)).sum /
          (((subs.filter (fun s => s.score.isSome)).length : ℚ) * 100) * 100 := by
    intro subs h
    have h1 : subs ≠ [] := by
      intro h0
      subst h0
      simp at h
    simp [calcScore, List.isEmpty_iff, h1, h]
  refine ⟨?_, ?_, ?_, ?_, ?_⟩
  · intro subs
    by_cases h1 : subs = []
    · subst h1
      rfl
    · by_cases h2 : subs.filter (fun s => s.score.isSome) = []
      · simp [calcScore, List.isEmpty_iff, h1, h2]
      · have h3 : (subs.filter (fun s => s.score.isSome)).filter
            (fun s => s.score.isSome) = subs.filter (fun s => s.score.isSome) := by
          rw [List.filter_filter]
          simp
        simp [calcScore, List.isEmpty_iff, h1, h2, h3]
  · intro subs h
    by_cases h1 : subs = []
    · subst h1
      rfl
    · simp [calcScore, List.isEmpty_iff, h1, h]
  · intro subs h
    refine ⟨hformula subs h, ?_⟩
    rw [hformula subs h]
    have hn : (((subs.filter (fun s => s.score.isSome)).length : ℚ)) ≠ 0 := by
      have hlen : (subs.filter (fun s => s.score.isSome)).length ≠ 0 := by
        simpa [List.length_eq_zero] using h
      exact_mod_cast hlen
    field_simp
    ring
  · intro db sid entry hmem
    simp only [get_student_progress] at hmem
    rcases List.mem_filterMap.mp hmem with ⟨e, he, hfe⟩
    rcases Option.map_eq_some'.mp hfe with ⟨c, hc, hentry⟩
    subst hentry
    rfl
  · intro db cid entry hmem
    simp only [get_course_students] at hmem
    rcases List.mem_filterMap.mp hmem with ⟨e, he, hfe⟩
    rcases Option.map_eq_some'.mp hfe with ⟨u, hu, hentry⟩
    subst hentry
    rfl

/-- Witness for C2 at concrete submission lists and stores. -/
theorem C2_performance_score_witness :
    calcScore [subNull] = 0 ∧
    (calcScore [sub80, subNull] =
      (([sub80, subNull].filter (fun s => s.score.isSome)).filterMap
        (fun s => s.score)).sum /
        ((([sub80, subNull].filter (fun s => s.score.isSome)).length : ℚ) * 100) * 100 ∧
      calcScore [sub80, subNull] =
        (([sub80, subNull].filter (fun s => s.score.isSome)).filterMap
          (fun s => s.score)).sum /
          (([sub80, subNull].filter (fun s => s.score.isSome)).length : ℚ)) ∧
    pEntry.score = roundHalfEven (calcScore (submissionsFor dbAtt pEntry.course_id 7)) ∧
    cEntry.performance = roundHalfEven (calcScore (submissionsFor dbCStud 1 cEntry.student_id)) :=
  ⟨C2_performance_score.2.1 [subNull] (by decide),
   C2_performance_score.2.2.1 [sub80, subNull] (by decide),
   C2_performance_score.2.2.2.1 dbAtt 7 pEntry pEntry_mem,
   C2_performance_score.2.2.2.2 dbCStud 1 cEntry cEntry_mem⟩

theorem gsa_rate (db : DB) (sid : Nat) (cf : Option Nat) :
    (get_student_attendance db sid cf).2.attendance_rate = round2
      (if 0 < (get_student_attendance db sid cf).1.length then
        (((get_student_attendance db sid cf).1.countP
          (fun r => r.status == stPresent) : ℚ) /
          ((get_student_attendance db sid cf).1.length : ℚ)) * 100
      else 0) := rfl

/-- C1: the student attendance-statistics endpoint reports counts over
the records in scope (student plus optional course filter) and a rate of
`present/total*100` rounded to 2 decimal places, 0 when no record is in
scope; the per-course attendance of the student progress endpoint is the
same ratio rounded to 0 decimal places, 0 when no record exists; and the
scenario Present, Present, Absent, Late yields total 4, present 2,
absent 1, late 1, excused 0, rate 50. -/
theorem C1_attendance_rate :
    (∀ (db : DB) (sid : Nat) (cf : Option Nat),
      (get_student_attendance db sid cf).2.total =
        (get_student_attendance db sid cf).1.length ∧
      (get_student_attendance db sid cf).2.present =
        (get_student_attendance db sid cf).1.countP (fun r => r.status == stPresent) ∧
      (get_student_attendance db sid cf).2.absent =
        (get_student_attendance db sid cf).1.countP (fun r => r.status == stAbsent) ∧
      (get_student_attendance db sid cf).2.late =
        (get_student_attendance db sid cf).1.countP (fun r => r.status == stLate) ∧
      (get_student_attendance db sid cf).2.excused =
        (get_student_attendance db sid cf).1.countP (fun r => r.status == stExcused) ∧
      (get_student_attendance db sid cf).2.attendance_rate = round2
        (if 0 < (get_student_attendance db sid cf).1.length then
          (((get_student_attendance db sid cf).1.countP
            (fun r => r.status == stPresent) : ℚ) /
            ((get_student_attendance db sid cf).1.length : ℚ)) * 100
        else 0) ∧
      ((get_student_attendance db sid cf).1.length = 0 →
        (get_student_attendance db sid cf).2.attendance_rate = 0)) ∧
    (∀ (db : DB) (sid : Nat), ∀ entry ∈ (get_student_progress db sid).1,
      entry.attendance = roundHalfEven (courseAttendancePct db entry.course_id sid) ∧
      (db.attendance.filter
        (fun r => r.course_id == entry.course_id && r.student_id == sid) = [] →
        entry.attendance = 0) ∧
      (db.attendance.filter
        (fun r => r.course_id == entry.course_id && r.student_id == sid) ≠ [] →
        entry.attendance = roundHalfEven
          (((db.attendance.filter (fun r => r.course_id == entry.course_id &&
              r.student_id == sid)).countP (fun r => r.status == stPresent) : ℚ) /
            ((db.attendance.filter (fun r => r.course_id == entry.course_id &&
              r.student_id == sid)).length : ℚ) * 100))) ∧
    (get_student_attendance dbScenario 7 none).2 =
      ⟨4, 2, 1, 1, 0, (50 : ℚ)⟩ := by
  refine ⟨?_, ?_, ?_⟩
  · intro db sid cf
    refine ⟨rfl, rfl, rfl, rfl, rfl, gsa_rate db sid cf, ?_⟩
    intro h
    rw [gsa_rate db sid cf, h]
    norm_num [round2_zero]
  · intro db sid entry hmem
    simp only [get_student_progress] at hmem
    rcases List.mem_filterMap.mp hmem with ⟨e, he, hfe⟩
    rcases Option.map_eq_some'.mp hfe with ⟨c, hc, hentry⟩
    subst hentry
    refine ⟨rfl, ?_, ?_⟩
    · intro h
      have hz : courseAttendancePct db e.course_id sid = 0 := by
        simp only [courseAttendancePct]
        rw [h]
        rfl
      show roundHalfEven (courseAttendancePct db e.course_id sid) = 0
      rw [hz]
      exact roundHalfEven_zero
    · intro h
      have hne : (db.attendance.filter
          (fun r => r.course_id == e.course_id && r.student_id == sid)).isEmpty
          = false := by
        simpa [List.isEmpty_iff] using h
      have hp : courseAttendancePct db e.course_id sid =
          ((db.attendance.filter (fun r => r.course_id == e.course_id &&
              r.student_id == sid)).countP (fun r => r.status == stPresent) : ℚ) /
            ((db.attendance.filter (fun r => r.course_id == e.course_id &&
              r.student_id == sid)).length : ℚ) * 100 := by
        simp only [courseAttendancePct, hne]
        rfl
      show roundHalfEven (courseAttendancePct db e.course_id sid) = _
      rw [hp]
  · have h1 : (get_student_attendance dbScenario 7 none).2.total = 4 := by decide
    have h2 : (get_student_attendance dbScenario 7 none).2.present = 2 := by decide
    have h3 : (get_student_attendance dbScenario 7 none).2.absent = 1 := by decide
    have h4 : (get_student_attendance dbScenario 7 none).2.late = 1 := by decide
    have h5 : (get_student_attendance dbScenario 7 none).2.excused = 0 := by decide
    have hc2 : (get_student_attendance dbScenario 7 none).1.countP
        (fun r => r.status == stPresent) = 2 := by decide
    have hl : (get_student_attendance dbScenario 7 none).1.length = 4 := by decide
    have hrate : (get_student_attendance dbScenario 7 none).2.attendance_rate = 50 := by
      rw [gsa_rate, hc2, hl]
      have hval : (((2 : ℕ) : ℚ) / ((4 : ℕ) : ℚ)) * 100 = ((50 : ℤ) : ℚ) := by
        norm_num
      rw [if_pos (by norm_num), hval, round2_intCast]
      norm_num
    have heta : (get_student_attendance dbScenario 7 none).2 =
        ⟨(get_student_attendance dbScenario 7 none).2.total,
         (get_student_attendance dbScenario 7 none).2.present,
         (get_student_attendance dbScenario 7 none).2.absent,
         (get_student_attendance dbScenario 7 none).2.late,
         (get_student_attendance dbScenario 7 none).2.excused,
         (get_student_attendance dbScenario 7 none).2.attendance_rate⟩ := rfl
    rw [heta, h1, h2, h3, h4, h5, hrate]

/-- Witness for C1 at the concrete scenario store and progress entry. -/
theorem C1_attendance_rate_witness :
    ((get_student_attendance dbScenario 7 none).1.length = 0 →
      (get_student_attendance dbScenario 7 none).2.attendance_rate = 0) ∧
    (dbAtt.attendance.filter
      (fun r => r.course_id == pEntry.course_id && r.student_id == 7) = [] →
      pEntry.attendance = 0) ∧
    (get_student_attendance dbScenario 7 none).2 = ⟨4, 2, 1, 1, 0, (50 : ℚ)⟩ :=
  ⟨((C1_attendance_rate.1 dbScenario 7 none).2.2.2.2.2.2),
   ((C1_attendance_rate.2.1 dbAtt 7 pEntry pEntry_mem).2.1),
   C1_attendance_rate.2.2⟩

end LMS
